import Mathlib

/-!
Verification of the search-agent news-bulletin pipeline.

The definitions below are a shallow embedding of the repository's Python
sources.  Text is modelled at code-point level (`List Char`), timestamps as
integer seconds (`Int`), fallible constructors as `Option`/`Except`, and the
two external collaborators (the Tavily search API and the OpenAI chat API)
as function parameters.
-/

/-! ### String helpers (Python `str` operations on code points) -/

/-- Whitespace recognised by Python `str.strip()` (ASCII subset). -/
def pyIsSpace (c : Char) : Bool :=
  c = ' ' || c = '\t' || c = '\n' || c = '\r' || c = '\x0b' || c = '\x0c'

/-- Python `str.strip()` on a code-point list. -/
def trimChars (l : List Char) : List Char :=
  ((l.dropWhile pyIsSpace).reverse.dropWhile pyIsSpace).reverse

/-- Python `str.strip()`. -/
def pyStrip (s : String) : String := ⟨trimChars s.data⟩

/-- Python `str.lower()` (ASCII letters; keywords below are all ASCII). -/
def lowerChars (l : List Char) : List Char := l.map Char.toLower

/-- Python substring test `needle in hay` on code-point lists. -/
def containsSub (hay needle : List Char) : Bool :=
  match hay with
  | [] => needle.isEmpty
  | c :: t => needle.isPrefixOf (c :: t) || containsSub t needle

/-- `needle in text` for a string keyword against a code-point list. -/
def strIn (needle : String) (text : List Char) : Bool :=
  containsSub text needle.data

/-- Python `s.startswith(p)`. -/
def startsWithStr (p s : String) : Bool := p.data.isPrefixOf s.data

/-- Python `s[:n]` on a string (code-point slice). -/
def strTake (s : String) (n : Nat) : String := ⟨s.data.take n⟩

/-! ### ArticleCategory (src/domain/value_objects/article_category.py) -/

/-- The fixed category enumeration. -/
inductive ArticleCategory where
  | MODEL_RELEASE
  | INVESTMENT
  | COMPETITIVE_DYNAMICS
  | RESEARCH_BREAKTHROUGH
  | ETHICS_INCIDENT
  | CREATIVE_APPLICATION
  | GENERAL
  deriving DecidableEq, Repr

/-! ### Categorizer (src/infrastructure/repositories/tavily_news_repository.py,
    `_categorize_article`) -/

/-- Keywords tested for `MODEL_RELEASE`. -/
def modelKeywords : List String :=
  ["model", "gpt", "claude", "gemini", "release", "launch", "announce"]

/-- Keywords tested for `INVESTMENT`. -/
def investmentKeywords : List String :=
  ["investment", "funding", "million", "billion", "raise", "capital"]

/-- Keywords tested for `RESEARCH_BREAKTHROUGH`. -/
def researchKeywords : List String :=
  ["research", "benchmark", "study", "paper", "academic"]

/-- Keywords tested for `ETHICS_INCIDENT`. -/
def ethicsKeywords : List String :=
  ["ethics", "bias", "fairness", "regulation", "safety"]

/-- Keywords tested for `COMPETITIVE_DYNAMICS`. -/
def competitiveKeywords : List String :=
  ["competition", "versus", "vs", "battle", "rival"]

/-- Keywords tested for `CREATIVE_APPLICATION`. -/
def creativeKeywords : List String :=
  ["creative", "art", "music", "generation", "synthesis"]

/-- `text = (title + " " + content).lower()` from `_categorize_article`. -/
def combinedText (title content : String) : List Char :=
  lowerChars (title.data ++ ' ' :: content.data)

/-- `_categorize_article(title, content)`: test the keyword sets in priority
    order on the lower-cased combined text; first match wins, `GENERAL` as
    fallback. -/
def categorize_article (title content : String) : ArticleCategory :=
  let text := combinedText title content
  if modelKeywords.any (fun kw => strIn kw text) then .MODEL_RELEASE
  else if investmentKeywords.any (fun kw => strIn kw text) then .INVESTMENT
  else if researchKeywords.any (fun kw => strIn kw text) then .RESEARCH_BREAKTHROUGH
  else if ethicsKeywords.any (fun kw => strIn kw text) then .ETHICS_INCIDENT
  else if competitiveKeywords.any (fun kw => strIn kw text) then .COMPETITIVE_DYNAMICS
  else if creativeKeywords.any (fun kw => strIn kw text) then .CREATIVE_APPLICATION
  else .GENERAL

/-- Spec-side table: the keyword sets in the priority order stated in the
    specification (Model Release, Investment, Research, Ethics, Competitive,
    Creative). -/
def categoryTable : List (ArticleCategory × List String) :=
  [(.MODEL_RELEASE, modelKeywords),
   (.INVESTMENT, investmentKeywords),
   (.RESEARCH_BREAKTHROUGH, researchKeywords),
   (.ETHICS_INCIDENT, ethicsKeywords),
   (.COMPETITIVE_DYNAMICS, competitiveKeywords),
   (.CREATIVE_APPLICATION, creativeKeywords)]

/-- Spec-side categorizer: the first category of `categoryTable` whose keyword
    set has a substring match in `text`, else `GENERAL`. -/
def firstMatching (text : List Char) : ArticleCategory :=
  match categoryTable.find? (fun p => p.2.any (fun kw => strIn kw text)) with
  | some p => p.1
  | none => .GENERAL

/-! ### Source extraction (src/infrastructure/repositories/tavily_news_repository.py,
    `_extract_source_from_url`), including the slice of `urllib.parse.urlparse`
    it relies on -/

/-- Characters allowed in a URL scheme (`urllib.parse.scheme_chars`). -/
def schemeChar (c : Char) : Bool :=
  c.isAlpha || c.isDigit || c = '+' || c = '-' || c = '.'

/-- Split a code-point list at its first `:`; `none` when there is no colon. -/
def splitColon : List Char → Option (List Char × List Char)
  | [] => none
  | ':' :: t => some ([], t)
  | c :: t =>
    match splitColon t with
    | none => none
    | some (b, a) => some (c :: b, a)

/-- `urlparse` scheme removal: a scheme is stripped when a colon follows a
    non-empty run of scheme characters whose first character is a letter. -/
def stripScheme (l : List Char) : List Char :=
  match splitColon l with
  | none => l
  | some ([], _) => l
  | some (c :: pre, after) =>
    if c.isAlpha && (c :: pre).all schemeChar then after else l

/-- Characters ending the netloc portion of a URL (`/`, `?`, `#`). -/
def netlocDelim (c : Char) : Bool := c = '/' || c = '?' || c = '#'

/-- Take characters up to the first netloc delimiter. -/
def takeUntilDelim (l : List Char) : List Char :=
  l.takeWhile (fun c => !netlocDelim c)

/-- The IPv6-bracket consistency check of `urllib.parse.urlsplit`; when it
    fails the parser raises `ValueError`. -/
def bracketsInvalid (netloc : List Char) : Bool :=
  (netloc.contains '[' && !netloc.contains ']') ||
  (netloc.contains ']' && !netloc.contains '[')

/-- The slice of `urllib.parse.urlparse` used by `_extract_source_from_url`:
    returns `(netloc, first path segment)`, or `none` when the parser raises
    (unbalanced IPv6 bracket in the netloc). -/
def urlparseHost (url : String) : Option (List Char × List Char) :=
  let rest := stripScheme url.data
  match rest with
  | '/' :: '/' :: r =>
    let netloc := takeUntilDelim r
    if bracketsInvalid netloc then none
    else some (netloc, takeUntilDelim (r.drop netloc.length))
  | r => some ([], takeUntilDelim r)

/-- Python `s.replace("www.", "")`: remove every leftmost-first,
    non-overlapping occurrence of `www.`. -/
def removeWWW : List Char → List Char
  | 'w' :: 'w' :: 'w' :: '.' :: rest => removeWWW rest
  | c :: rest => c :: removeWWW rest
  | [] => []

/-- `_extract_source_from_url(url)`: `domain = parsed.netloc or
    parsed.path.split('/')[0]; return domain.replace('www.', '')`, with the
    `except` branch producing `"Unknown Source"`. -/
def extract_source_from_url (url : String) : String :=
  match urlparseHost url with
  | none => "Unknown Source"
  | some (netloc, seg) =>
    let domain := if netloc ≠ [] then netloc else seg
    ⟨removeWWW domain⟩

/-! ### NewsArticle (src/domain/entities/news_article.py) -/

/-- The immutable news-article entity; `published_date` is a timestamp in
    seconds when set. -/
structure NewsArticle where
  title : String
  source : String
  url : String
  summary : String
  category : ArticleCategory
  published_date : Option Int := none
  deriving DecidableEq, Repr

/-- `NewsArticle.__post_init__`: validation performed at construction; `none`
    models the raised `ValueError` (no partially-valid record escapes). -/
def NewsArticle.make (title source url summary : String)
    (category : ArticleCategory) (published_date : Option Int) :
    Option NewsArticle :=
  if pyStrip title = "" then none
  else if pyStrip source = "" then none
  else if pyStrip url = "" then none
  else if pyStrip summary = "" then none
  else if !(startsWithStr "http://" url || startsWithStr "https://" url) then none
  else some ⟨title, source, url, summary, category, published_date⟩

/-- `NewsArticle.is_in_date_range`: `False` when `published_date` is unset,
    otherwise the closed-interval test `start_date <= d <= end_date`. -/
def NewsArticle.is_in_date_range (a : NewsArticle)
    (start_date end_date : Int) : Bool :=
  match a.published_date with
  | none => false
  | some d => decide (start_date ≤ d) && decide (d ≤ end_date)

/-! ### Mapping raw search results to entities
    (src/infrastructure/repositories/tavily_news_repository.py) -/

/-- One raw result from the search collaborator, with the `dict.get` defaults
    used by `_map_to_entity`. -/
structure RawResult where
  title : String := ""
  url : String := ""
  content : String := ""
  published_date : String := ""
  deriving DecidableEq, Repr

/-- `_map_to_entity(result)`.  The strict ISO-8601 parse
    (`datetime.fromisoformat` after the `Z` substitution) is abstracted as the
    parameter `parse_iso`, returning `none` on parse failure. -/
def map_to_entity (parse_iso : String → Option Int) (result : RawResult) :
    Option NewsArticle :=
  let title := pyStrip result.title
  let url := pyStrip result.url
  let content := pyStrip result.content
  let source := extract_source_from_url url
  let published_date :=
    if result.published_date ≠ "" then parse_iso result.published_date else none
  let category := categorize_article title content
  NewsArticle.make title source url
    (if content ≠ "" then strTake content 500 else "No summary available")
    category published_date

/-- `_to_domain_entities(api_response)`: `none` models a missing/`None`
    response (empty output), and every raw result failing `map_to_entity` is
    skipped. -/
def to_domain_entities (parse_iso : String → Option Int)
    (response : Option (List RawResult)) : List NewsArticle :=
  match response with
  | none => []
  | some results => results.filterMap (map_to_entity parse_iso)

/-- A date parser that always fails, usable for concrete instances. -/
def parseNone : String → Option Int := fun _ => none

/-! ### DateRange (src/domain/value_objects/date_range.py) -/

/-- Seconds per day, fixing the timestamp granularity of the embedding. -/
def secondsPerDay : Int := 86400

/-- Python `(e - s).days` for two timestamps: floor division of the
    difference by one day (`timedelta.days` floors). -/
def daysBetween (s e : Int) : Int := (e - s).fdiv secondsPerDay

/-- The validated date-range value object. -/
structure DateRange where
  start_date : Int
  end_date : Int
  deriving DecidableEq, Repr

/-- `DateRange.__post_init__`: construction fails (`ValueError`) when
    `start_date >= end_date` or when the whole-day span exceeds 30. -/
def DateRange.make (start_date end_date : Int) : Except String DateRange :=
  if start_date ≥ end_date then .error "Start date must be before end date"
  else if daysBetween start_date end_date > 30 then
    .error "Date range cannot exceed 30 days"
  else .ok ⟨start_date, end_date⟩

/-- `DateRange.to_days`. -/
def DateRange.to_days (dr : DateRange) : Int :=
  daysBetween dr.start_date dr.end_date

/-- `DateRange.create_last_n_days(end_date, days)`. -/
def DateRange.create_last_n_days (end_date days : Int) :
    Except String DateRange :=
  if days < 1 then .error "Days must be at least 1"
  else if days > 30 then .error "Days cannot exceed 30"
  else DateRange.make (end_date - days * secondsPerDay) end_date

/-! ### Collector filtering
    (src/application/use_cases/generate_bulletin_use_case.py, `execute`) -/

/-- The date-filtering step of `GenerateBulletinUseCase.execute`: the list
    comprehension keeping articles whose `is_in_date_range` holds, in the
    order received from the repository. -/
def filter_articles (articles : List NewsArticle) (dr : DateRange) :
    List NewsArticle :=
  articles.filter (fun a => a.is_in_date_range dr.start_date dr.end_date)

/-- Spec-side membership predicate: the published date is set and lies in the
    closed interval of the window. -/
def claimKeep (dr : DateRange) (a : NewsArticle) : Prop :=
  ∃ d, a.published_date = some d ∧ dr.start_date ≤ d ∧ d ≤ dr.end_date

instance (dr : DateRange) (a : NewsArticle) : Decidable (claimKeep dr a) := by
  unfold claimKeep
  match h : a.published_date with
  | none => exact .isFalse (by simp [h])
  | some d =>
    exact decidable_of_iff (dr.start_date ≤ d ∧ d ≤ dr.end_date) (by simp [h])

/-! ### Search-and-retry flow (src/app.py,
    `NewsBulletinGenerator.generate_bulletin`) -/

/-- The broadening condition of `generate_bulletin`: the first response is
    missing (`None`) or carries fewer than 5 results. -/
def needs_broadening (r : Option (List RawResult)) : Bool :=
  match r with
  | none => true
  | some results => decide (results.length < 5)

/-- The search phase of `generate_bulletin`.  `search` models
    `search_ai_news` for the fixed query and day span, taking the
    `include_domains` argument; `none` models its `None` return on failure.
    The second component records the `include_domains` argument of every call
    made, in order. -/
def generate_bulletin_search
    (search : Option (List String) → Option (List RawResult))
    (domains : Option (List String)) :
    Option (List RawResult) × List (Option (List String)) :=
  let r1 := search domains
  if needs_broadening r1 then (search none, [domains, none])
  else (r1, [domains])

/-- The outcome of the search phase: `generate_bulletin` returns the failure
    text when the selected response is still `None`, and otherwise proceeds
    with its results. -/
def bulletin_search_outcome
    (search : Option (List String) → Option (List RawResult))
    (domains : Option (List String)) : Except String (List RawResult) :=
  match (generate_bulletin_search search domains).1 with
  | none => .error "Haberler aranamadı."
  | some rs => .ok rs

/-! ### Bulletin writer (src/infrastructure/ai/openai_bulletin_writer.py,
    `write_bulletin`) -/

/-- `OpenAIBulletinWriter.write_bulletin`.  The `ChatCompletion` call is the
    collaborator `llm`, mapping the prompt either to the reply content or to
    the exception text; prompt assembly (`_format_articles_for_prompt`,
    `_create_prompt`) and the strftime-based `format_for_display` are string
    glue abstracted as the parameters `build_prompt` and `display`.  The
    string literals reproduce the repository file byte-for-byte. -/
def write_bulletin (llm : String → Except String String)
    (display : DateRange → String)
    (build_prompt : List NewsArticle → DateRange → String)
    (articles : List NewsArticle) (dr : DateRange) : String :=
  if articles.isEmpty then
    "Haftal?k Yapay Zeka B?lteni (" ++ display dr ++
      ")\n\nBu tarih aral???nda haber bulunamad?."
  else
    match llm (build_prompt articles dr) with
    | .ok content => content
    | .error e => "B?lten olu?turulamad?: " ++ e

/-! Concrete instances used by witnesses and counterexamples. -/

/-- The collaborator of the C5 counterexample: reachable with one result under
    a domain restriction, unreachable on the broadened retry. -/
def cexSearch : Option (List String) → Option (List RawResult)
  | some _ => some [{ title := "t", url := "https://example.com", content := "c" }]
  | none => none

/-- The concrete raw result used by the C7 witness. -/
def truncRaw : RawResult :=
  { title := "AI weekly", url := "https://example.com/a", content := "hello" }

/-- The record `truncRaw` maps to. -/
def truncArticle : NewsArticle :=
  { title := "AI weekly", source := "example.com",
    url := "https://example.com/a", summary := "hello",
    category := .GENERAL, published_date := none }

/-- Spec-side source derivation following the claim's words: strip only a
    leading `"www."` prefix from the host, leaving every other character of
    the host unchanged. -/
def spec_strip_leading_www (host : List Char) : List Char :=
  if ("www.".data).isPrefixOf host then host.drop 4 else host

/-! Sanity checks of the embedding on concrete inputs. -/

example : categorize_article "OpenAI ships new GPT" "with fresh funding" = .MODEL_RELEASE := by decide
example : categorize_article "quarterly funding round" "" = .INVESTMENT := by decide
example : categorize_article "hello" "world" = .GENERAL := by decide

example : extract_source_from_url "https://www.techcrunch.com/2024/x" = "techcrunch.com" := by decide
example : extract_source_from_url "https://www.www.example.com/a" = "example.com" := by decide
example : extract_source_from_url "http://[::1" = "Unknown Source" := by decide
example : extract_source_from_url "example.com/story" = "example.com" := by decide
example : extract_source_from_url "" = "" := by decide

example :
    map_to_entity parseNone
      { title := "AI weekly", url := "https://example.com/a", content := "" } ≠ none := by decide
example :
    map_to_entity parseNone
      { title := "", url := "https://example.com/a", content := "body" } = none := by decide
example :
    map_to_entity parseNone
      { title := "AI weekly", url := "ftp://example.com/a", content := "body" } = none := by decide

example : DateRange.make 0 86400 = .ok ⟨0, 86400⟩ := rfl
example : DateRange.make 86400 0 = .error "Start date must be before end date" := rfl
example : DateRange.make 0 (31 * 86400) = .error "Date range cannot exceed 30 days" := rfl
example : DateRange.create_last_n_days 0 7 = .ok ⟨-604800, 0⟩ := rfl

/-! ### Theorems -/

/-- C6: every successfully constructed `DateRange` satisfies
    `start_date < end_date` and a whole-day span of at most 30, and
    construction fails with an `InvalidRangeError` message for every pair with
    `start_date ≥ end_date` or a whole-day span exceeding 30. -/
theorem date_window_invariant (s e : Int) :
    (∀ dr : DateRange, DateRange.make s e = .ok dr →
      dr.start_date < dr.end_date ∧ dr.to_days ≤ 30)
    ∧ ((s ≥ e ∨ daysBetween s e > 30) →
      ∃ msg, DateRange.make s e = .error msg) := by
  constructor
  · intro dr h
    unfold DateRange.make at h
    by_cases h1 : s ≥ e
    · simp [h1] at h
    · by_cases h2 : daysBetween s e > 30
      · simp [h1, h2] at h
      · simp [h1, h2] at h
        cases h
        constructor
        · simpa using h1
        · show daysBetween s e ≤ 30
          omega
  · intro h
    by_cases h1 : s ≥ e
    · refine ⟨"Start date must be before end date", ?_⟩
      simp [DateRange.make, h1]
    · have h2 : daysBetween s e > 30 := by tauto
      refine ⟨"Date range cannot exceed 30 days", ?_⟩
      simp [DateRange.make, h1, h2]

theorem date_window_invariant_witness :
    ((0 : Int) < 86400 ∧ DateRange.to_days ⟨0, 86400⟩ ≤ 30)
    ∧ ∃ msg, DateRange.make 86400 0 = .error msg :=
  ⟨(date_window_invariant 0 86400).1 ⟨0, 86400⟩ rfl,
   (date_window_invariant 86400 0).2 (Or.inl (by norm_num))⟩

/-- C10: for every end timestamp and every whole-day count in `[1, 30]`,
    `create_last_n_days` succeeds, producing the window with
    `start = end - days` whose constructor invariants hold automatically. -/
theorem create_last_n_days_in_range_succeeds (e days : Int)
    (h1 : 1 ≤ days) (h2 : days ≤ 30) :
    DateRange.create_last_n_days e days =
      .ok ⟨e - days * secondsPerDay, e⟩ := by
  unfold DateRange.create_last_n_days DateRange.make daysBetween secondsPerDay
  have hsub : e - (e - days * 86400) = days * 86400 := by ring
  rw [hsub, Int.mul_fdiv_cancel days (by norm_num)]
  rw [if_neg (by omega), if_neg (by omega), if_neg (by omega), if_neg (by omega)]

theorem create_last_n_days_witness :
    DateRange.create_last_n_days 0 7 = .ok ⟨-604800, 0⟩ := by
  have h := create_last_n_days_in_range_succeeds 0 7 (by norm_num) (by norm_num)
  simpa [secondsPerDay] using h

/-- C2: the collector's date-filtering step returns exactly the sub-list, in
    the order received from the search collaborator, of the records whose
    published date is set and lies in the closed window; records with an
    unset date are excluded. -/
theorem collector_date_filter_correct (articles : List NewsArticle)
    (dr : DateRange) :
    filter_articles articles dr =
      articles.filter (fun a => decide (claimKeep dr a))
    ∧ (filter_articles articles dr).Sublist articles := by
  constructor
  · unfold filter_articles
    congr 1
    funext a
    rw [Bool.eq_iff_iff]
    cases h : a.published_date with
    | none => simp [NewsArticle.is_in_date_range, claimKeep, h]
    | some d => simp [NewsArticle.is_in_date_range, claimKeep, h]
  · exact List.filter_sublist _

/-- C3: the categorizer is the pure function on `(title, content)` that
    lower-cases the combined text and returns the first category of the fixed
    priority table with a keyword substring match; in particular text
    containing both `gpt` and `funding` classifies as `MODEL_RELEASE`, and
    text matching no keyword set classifies as `GENERAL`. -/
theorem categorizer_priority (title content : String) :
    (categorize_article title content =
      firstMatching (combinedText title content))
    ∧ (strIn "gpt" (combinedText title content) = true →
        strIn "funding" (combinedText title content) = true →
        categorize_article title content = .MODEL_RELEASE)
    ∧ ((∀ p ∈ categoryTable, ∀ kw ∈ p.2,
          strIn kw (combinedText title content) = false) →
        categorize_article title content = .GENERAL) := by
  refine ⟨?_, ?_, ?_⟩
  · unfold categorize_article firstMatching categoryTable
    by_cases h1 : modelKeywords.any
        (fun kw => strIn kw (combinedText title content)) = true
    · simp [h1]
    · by_cases h2 : investmentKeywords.any
          (fun kw => strIn kw (combinedText title content)) = true
      · simp [h1, h2]
      · by_cases h3 : researchKeywords.any
            (fun kw => strIn kw (combinedText title content)) = true
        · simp [h1, h2, h3]
        · by_cases h4 : ethicsKeywords.any
              (fun kw => strIn kw (combinedText title content)) = true
          · simp [h1, h2, h3, h4]
          · by_cases h5 : competitiveKeywords.any
                (fun kw => strIn kw (combinedText title content)) = true
            · simp [h1, h2, h3, h4, h5]
            · by_cases h6 : creativeKeywords.any
                  (fun kw => strIn kw (combinedText title content)) = true
              · simp [h1, h2, h3, h4, h5, h6]
              · simp [h1, h2, h3, h4, h5, h6]
  · intro hg _
    have h1 : modelKeywords.any
        (fun kw => strIn kw (combinedText title content)) = true :=
      List.any_eq_true.mpr ⟨"gpt", by simp [modelKeywords], hg⟩
    simp [categorize_article, h1]
  · intro hall
    have key : ∀ cat kws, (cat, kws) ∈ categoryTable →
        kws.any (fun kw => strIn kw (combinedText title content)) = false := by
      intro cat kws hmem
      rw [List.any_eq_false]
      intro kw hkw
      simp [hall (cat, kws) hmem kw hkw]
    have h1 := key .MODEL_RELEASE modelKeywords (by simp [categoryTable])
    have h2 := key .INVESTMENT investmentKeywords (by simp [categoryTable])
    have h3 := key .RESEARCH_BREAKTHROUGH researchKeywords (by simp [categoryTable])
    have h4 := key .ETHICS_INCIDENT ethicsKeywords (by simp [categoryTable])
    have h5 := key .COMPETITIVE_DYNAMICS competitiveKeywords (by simp [categoryTable])
    have h6 := key .CREATIVE_APPLICATION creativeKeywords (by simp [categoryTable])
    simp [categorize_article, h1, h2, h3, h4, h5, h6]

theorem categorizer_priority_witness :
    categorize_article "gpt" "funding" = .MODEL_RELEASE :=
  (categorizer_priority "gpt" "funding").2.1 (by decide) (by decide)

/-- C4: when a source filter is supplied and the first search call fails or
    returns fewer than 5 results, the collector retries exactly once with no
    domain restriction and uses the second response; it makes at most two
    calls ever, and makes no second call when the first yields 5 or more
    results. -/
theorem retry_policy
    (search : Option (List String) → Option (List RawResult))
    (d : List String) :
    (needs_broadening (search (some d)) = true →
      (generate_bulletin_search search (some d)).2 = [some d, none]
      ∧ (generate_bulletin_search search (some d)).1 = search none)
    ∧ (∀ rs, search (some d) = some rs → 5 ≤ rs.length →
      (generate_bulletin_search search (some d)).2 = [some d]
      ∧ (generate_bulletin_search search (some d)).1 = some rs)
    ∧ (∀ domains, (generate_bulletin_search search domains).2.length ≤ 2) := by
  refine ⟨?_, ?_, ?_⟩
  · intro h
    simp [generate_bulletin_search, h]
  · intro rs hr hlen
    have h : needs_broadening (some rs) = false := by
      simp [needs_broadening]
      omega
    simp [generate_bulletin_search, hr, h]
  · intro domains
    cases hb : needs_broadening (search domains) <;>
      simp [generate_bulletin_search, hb]

theorem retry_policy_witness :
    (generate_bulletin_search (fun _ => none) (some ["techcrunch.com"])).2 =
      [some ["techcrunch.com"], none] :=
  ((retry_policy (fun _ => none) ["techcrunch.com"]).1 rfl).1

/-- C5 counterexample: the failure outcome is produced although the primary
    attempt was reachable (it returned one result); so the failure is not
    equivalent to the collaborator being unreachable on both attempts. -/
theorem search_error_despite_first_success :
    bulletin_search_outcome cexSearch (some ["techcrunch.com"]) =
      .error "Haberler aranamadı."
    ∧ cexSearch (some ["techcrunch.com"]) ≠ none := by
  exact ⟨rfl, by simp [cexSearch]⟩

/-- C5 (amended): the collector produces the search-failure outcome exactly
    when the first attempt fails or returns fewer than 5 results and the
    broadened retry fails; a reachable retry with an empty result list is a
    valid, non-error outcome. -/
theorem search_unavailable_characterization
    (search : Option (List String) → Option (List RawResult))
    (domains : Option (List String)) :
    (bulletin_search_outcome search domains = .error "Haberler aranamadı." ↔
      needs_broadening (search domains) = true ∧ search none = none)
    ∧ (needs_broadening (search domains) = true → search none = some [] →
      bulletin_search_outcome search domains = .ok []) := by
  constructor
  · by_cases h : needs_broadening (search domains) = true
    · cases hn : search none <;>
        simp [bulletin_search_outcome, generate_bulletin_search, h, hn]
    · cases hd : search domains with
      | none => simp [needs_broadening, hd] at h
      | some rs =>
        rw [hd] at h
        simp [bulletin_search_outcome, generate_bulletin_search, h, hd]
  · intro h hn
    simp [bulletin_search_outcome, generate_bulletin_search, h, hn]

theorem search_unavailable_characterization_witness :
    bulletin_search_outcome (fun _ => some []) (some ["x"]) = .ok [] :=
  (search_unavailable_characterization (fun _ => some []) (some ["x"])).2
    rfl rfl

/-- Helper: a successful `NewsArticle.make` yields exactly the record built
    from its arguments. -/
theorem NewsArticle.make_eq_some {title source url summary : String}
    {category : ArticleCategory} {published : Option Int} {a : NewsArticle}
    (h : NewsArticle.make title source url summary category published = some a) :
    a = ⟨title, source, url, summary, category, published⟩ := by
  unfold NewsArticle.make at h
  repeat' split at h
  all_goals simp_all

/-- C1 counterexample: a raw result with empty content is not rejected; it is
    mapped to a record with the sentinel summary, so empty content does not
    cause a `ValidationError`. -/
theorem record_construction_empty_content_cex :
    map_to_entity parseNone
      { title := "AI weekly", url := "https://example.com/a", content := "" } =
      some { title := "AI weekly", source := "example.com",
             url := "https://example.com/a", summary := "No summary available",
             category := .GENERAL, published_date := none } := by
  decide

/-- C1 (amended): after trimming, an empty title, an empty url, or a url
    without an `http://`/`https://` scheme each independently cause record
    construction to fail (the raw result is discarded); empty content does
    not fail — the record is built with the sentinel summary
    `"No summary available"`. -/
theorem record_construction_rejections (parse_iso : String → Option Int)
    (r : RawResult) :
    (pyStrip r.title = "" → map_to_entity parse_iso r = none)
    ∧ (pyStrip r.url = "" → map_to_entity parse_iso r = none)
    ∧ (startsWithStr "http://" (pyStrip r.url) = false →
        startsWithStr "https://" (pyStrip r.url) = false →
        map_to_entity parse_iso r = none)
    ∧ (∀ a, pyStrip r.content = "" → map_to_entity parse_iso r = some a →
        a.summary = "No summary available") := by
  have hstrip : pyStrip "" = "" := rfl
  have hextract : extract_source_from_url "" = "" := rfl
  refine ⟨?_, ?_, ?_, ?_⟩
  · intro ht
    simp [map_to_entity, NewsArticle.make, ht, hstrip, ite_self]
  · intro hu
    simp [map_to_entity, NewsArticle.make, hu, hstrip, hextract, ite_self]
  · intro h1 h2
    simp [map_to_entity, NewsArticle.make, h1, h2, ite_self]
  · intro a hc h
    simp only [map_to_entity, hc, ne_eq, not_true_eq_false, if_false] at h
    rw [NewsArticle.make_eq_some h]

theorem record_construction_rejections_witness :
    map_to_entity parseNone { title := " ", url := "https://example.com" } =
      none :=
  (record_construction_rejections parseNone
    { title := " ", url := "https://example.com" }).1 rfl

/-- C7: for every raw result whose trimmed content is non-empty and maps to a
    record, the record's summary is the first 500 code points of the content:
    exactly 500 characters when the content is longer, the unmodified content
    otherwise. -/
theorem summary_truncation (parse_iso : String → Option Int) (r : RawResult)
    (a : NewsArticle) (hc : pyStrip r.content ≠ "")
    (h : map_to_entity parse_iso r = some a) :
    a.summary = strTake (pyStrip r.content) 500
    ∧ (500 < (pyStrip r.content).data.length → a.summary.data.length = 500)
    ∧ ((pyStrip r.content).data.length ≤ 500 →
        a.summary = pyStrip r.content) := by
  simp only [map_to_entity, hc, ne_eq, not_false_eq_true, if_true] at h
  have ha := NewsArticle.make_eq_some h
  refine ⟨by rw [ha], ?_, ?_⟩
  · intro hl
    rw [ha]
    show ((pyStrip r.content).data.take 500).length = 500
    rw [List.length_take]
    omega
  · intro hl
    rw [ha]
    show strTake (pyStrip r.content) 500 = pyStrip r.content
    simp [strTake, List.take_of_length_le hl]

theorem summary_truncation_witness :
    truncArticle.summary = strTake (pyStrip "hello") 500 :=
  (summary_truncation parseNone truncRaw truncArticle (by decide)
    (by decide)).1

/-! Helper lemmas evaluating the URL-parsing model on a symbolic host. -/

theorem data_https (h tail : String) :
    ("https://" ++ h ++ "/" ++ tail).data =
      'h' :: 't' :: 't' :: 'p' :: 's' :: ':' :: '/' :: '/' ::
        (h.data ++ '/' :: tail.data) := by
  have h1 : "https://".data = ['h', 't', 't', 'p', 's', ':', '/', '/'] := rfl
  have h2 : "/".data = ['/'] := rfl
  simp [String.data_append, h1, h2]

theorem data_http (h tail : String) :
    ("http://" ++ h ++ "/" ++ tail).data =
      'h' :: 't' :: 't' :: 'p' :: ':' :: '/' :: '/' ::
        (h.data ++ '/' :: tail.data) := by
  have h1 : "http://".data = ['h', 't', 't', 'p', ':', '/', '/'] := rfl
  have h2 : "/".data = ['/'] := rfl
  simp [String.data_append, h1, h2]

theorem splitColon_https (r : List Char) :
    splitColon ('h' :: 't' :: 't' :: 'p' :: 's' :: ':' :: r) =
      some (['h', 't', 't', 'p', 's'], r) := by
  simp [splitColon]

theorem splitColon_http (r : List Char) :
    splitColon ('h' :: 't' :: 't' :: 'p' :: ':' :: r) =
      some (['h', 't', 't', 'p'], r) := by
  simp [splitColon]

theorem stripScheme_https (r : List Char) :
    stripScheme ('h' :: 't' :: 't' :: 'p' :: 's' :: ':' :: r) = r := by
  simp [stripScheme, splitColon_https, schemeChar]

theorem stripScheme_http (r : List Char) :
    stripScheme ('h' :: 't' :: 't' :: 'p' :: ':' :: r) = r := by
  simp [stripScheme, splitColon_http, schemeChar]

theorem takeUntilDelim_append (l rest : List Char)
    (hl : ∀ c ∈ l, netlocDelim c = false) :
    takeUntilDelim (l ++ '/' :: rest) = l := by
  unfold takeUntilDelim
  induction l with
  | nil => simp [netlocDelim]
  | cons c t ih =>
    have hc : netlocDelim c = false := hl c (List.mem_cons_self c t)
    simp only [List.cons_append, List.takeWhile_cons, hc]
    simp [ih (fun x hx => hl x (List.mem_cons_of_mem c hx))]

theorem brackets_ok (h : String)
    (hc : ∀ c ∈ h.data, c ≠ '[' ∧ c ≠ ']') :
    bracketsInvalid h.data = false := by
  have key : ∀ a : Char, (∀ c ∈ h.data, c ≠ a) → h.data.contains a = false := by
    intro a ha
    rw [Bool.eq_false_iff]
    intro hcon
    rw [List.contains_eq_any_beq] at hcon
    obtain ⟨c, hcm, hcb⟩ := List.any_eq_true.mp hcon
    have hac : a = c := by simpa using hcb
    exact ha c hcm hac.symm
  have h1 := key '[' (fun c hm => (hc c hm).1)
  have h2 := key ']' (fun c hm => (hc c hm).2)
  simp only [bracketsInvalid, h1, h2]
  rfl

theorem urlparseHost_https (h tail : String)
    (hl : ∀ c ∈ h.data, netlocDelim c = false)
    (hbr : bracketsInvalid h.data = false) :
    urlparseHost ("https://" ++ h ++ "/" ++ tail) = some (h.data, []) := by
  unfold urlparseHost
  rw [data_https, stripScheme_https]
  have hnet : takeUntilDelim (h.data ++ '/' :: tail.data) = h.data :=
    takeUntilDelim_append _ _ hl
  simp only [hnet, hbr]
  rw [List.drop_left]
  simp [takeUntilDelim, netlocDelim]

theorem urlparseHost_http (h tail : String)
    (hl : ∀ c ∈ h.data, netlocDelim c = false)
    (hbr : bracketsInvalid h.data = false) :
    urlparseHost ("http://" ++ h ++ "/" ++ tail) = some (h.data, []) := by
  unfold urlparseHost
  rw [data_http, stripScheme_http]
  have hnet : takeUntilDelim (h.data ++ '/' :: tail.data) = h.data :=
    takeUntilDelim_append _ _ hl
  simp only [hnet, hbr]
  rw [List.drop_left]
  simp [takeUntilDelim, netlocDelim]

/-- C8 counterexample: for the URL `https://www.www.example.com/a` the code
    removes every occurrence of `"www."` from the host and yields
    `example.com`, while the claim's leading-prefix rule yields
    `www.example.com`. -/
theorem source_not_leading_prefix_cex :
    extract_source_from_url "https://www.www.example.com/a" = "example.com"
    ∧ String.mk (spec_strip_leading_www "www.www.example.com".data) =
        "www.example.com"
    ∧ ("example.com" : String) ≠ "www.example.com" :=
  ⟨by decide, by decide, by decide⟩

/-- C8 (amended): for every http(s) URL whose host contains no delimiter and
    no bracket, the record's source is the host with every leftmost
    non-overlapping occurrence of `"www."` removed (not only a leading
    prefix); a URL the parser raises on (unbalanced IPv6 bracket) yields the
    sentinel `"Unknown Source"` instead of a failure. -/
theorem source_host_www_removed (h tail : String)
    (hl : ∀ c ∈ h.data, netlocDelim c = false)
    (hb : ∀ c ∈ h.data, c ≠ '[' ∧ c ≠ ']') :
    (extract_source_from_url ("https://" ++ h ++ "/" ++ tail) =
        ⟨removeWWW h.data⟩
     ∧ extract_source_from_url ("http://" ++ h ++ "/" ++ tail) =
        ⟨removeWWW h.data⟩)
    ∧ extract_source_from_url "http://[::1" = "Unknown Source" := by
  have hbr := brackets_ok h hb
  have hu1 := urlparseHost_https h tail hl hbr
  have hu2 := urlparseHost_http h tail hl hbr
  refine ⟨⟨?_, ?_⟩, rfl⟩
  · simp only [extract_source_from_url, hu1]
    by_cases hh : h.data = []
    · simp [hh]
    · simp [hh]
  · simp only [extract_source_from_url, hu2]
    by_cases hh : h.data = []
    · simp [hh]
    · simp [hh]

theorem source_host_www_removed_witness :
    extract_source_from_url "https://www.example.com/x" =
      ⟨removeWWW "www.example.com".data⟩ :=
  ((source_host_www_removed "www.example.com" "x" (by decide) (by decide)).1).1

/-- C9: the bulletin writer is total and soft-fails: for every collaborator
    outcome it returns a string, and when the language-model collaborator
    fails on a non-empty article list the result is the textual failure
    indicator carrying the exception text, never a propagated exception. -/
theorem writer_soft_failure (llm : String → Except String String)
    (display : DateRange → String)
    (build_prompt : List NewsArticle → DateRange → String)
    (articles : List NewsArticle) (dr : DateRange) :
    (∀ e, articles ≠ [] → llm (build_prompt articles dr) = .error e →
      write_bulletin llm display build_prompt articles dr =
        "B?lten olu?turulamad?: " ++ e)
    ∧ (∀ c, articles ≠ [] → llm (build_prompt articles dr) = .ok c →
      write_bulletin llm display build_prompt articles dr = c)
    ∧ (articles = [] →
      write_bulletin llm display build_prompt articles dr =
        "Haftal?k Yapay Zeka B?lteni (" ++ display dr ++
          ")\n\nBu tarih aral???nda haber bulunamad?.") := by
  refine ⟨?_, ?_, ?_⟩
  · intro e hne h
    simp [write_bulletin, hne, h]
  · intro c hne h
    simp [write_bulletin, hne, h]
  · intro he
    simp [write_bulletin, he]

theorem writer_soft_failure_witness :
    write_bulletin (fun _ => .error "boom") (fun _ => "") (fun _ _ => "")
      [{ title := "t", source := "s", url := "https://e.com", summary := "x",
         category := .GENERAL }] ⟨0, 86400⟩ =
      "B?lten olu?turulamad?: boom" :=
  (writer_soft_failure (fun _ => .error "boom") (fun _ => "") (fun _ _ => "")
    [{ title := "t", source := "s", url := "https://e.com", summary := "x",
       category := .GENERAL }] ⟨0, 86400⟩).1 "boom" (by simp) rfl
